import Mathlib

/-!
Shallow embedding of the Zynq PS SPI driver `xspips.c` (spips_v1_04_a).

The driver's software-visible state (the `XSpiPs` instance record) and the
hardware it drives (control, status and interrupt-mask registers, the
transmit and receive FIFOs) are modelled together in one record `SpiSys`.
Machine integers are modelled as `Nat`; 32-bit one's complement (the C `~`
operator on `u32` operands) is written `0xFFFFFFFF ^^^ x`.  Byte buffers
are lists: the send cursor `sendBuf` holds the bytes not yet pushed, the
receive cursor `recvBuf` (absent when the caller passed a null pointer)
accumulates the bytes written through it, and `statusCalls` records every
invocation of the status callback as an (event, byteCount) pair.
-/

/-- Modelled from the spec: register-field constants from the driver's
hardware header `xspips_hw.h`, which is not among the sources.  The
control register holds a 4-bit active-low slave-select field
(`XSPIPS_CR_SSCTRL_*`, all-ones sentinel 0xF meaning no slave selected),
a manual-chip-select-mode bit, a manual-start-enable bit, a manual-start
trigger bit and a master-mode bit; the status register holds one bit per
event (receive overrun, mode fault, transmit-FIFO ready, receive
not-empty, transmit underrun), the write-one-to-clear events being mode
fault, overrun and underrun. -/
def XSPIPS_CR_SSCTRL_SHIFT : Nat := 10

def XSPIPS_CR_SSCTRL_MAXIMUM : Nat := 0xF

def XSPIPS_CR_SSCTRL_MASK : Nat := 0xF <<< 10

def XSPIPS_CR_SSFORCE_MASK : Nat := 0x4000

def XSPIPS_CR_MANSTRTEN_MASK : Nat := 0x8000

def XSPIPS_CR_MANSTRT_MASK : Nat := 0x10000

def XSPIPS_CR_MSTREN_MASK : Nat := 0x1

def XSPIPS_IXR_RXOVR_MASK : Nat := 0x1

def XSPIPS_IXR_MODF_MASK : Nat := 0x2

def XSPIPS_IXR_TXOW_MASK : Nat := 0x4

def XSPIPS_IXR_RXNEMPTY_MASK : Nat := 0x10

def XSPIPS_IXR_TXUF_MASK : Nat := 0x40

def XSPIPS_IXR_WR_TO_CLR_MASK : Nat :=
  XSPIPS_IXR_RXOVR_MASK ||| XSPIPS_IXR_MODF_MASK ||| XSPIPS_IXR_TXUF_MASK

def XSPIPS_IXR_DFLT_MASK : Nat := XSPIPS_IXR_TXOW_MASK ||| XSPIPS_IXR_MODF_MASK

/-- Modelled from the spec: the fixed transmit/receive FIFO depth of the
hardware, from the missing header.  The driver functions below take the
depth as an explicit parameter `d`; this constant is its concrete value. -/
def XSPIPS_FIFO_DEPTH : Nat := 128

/-- Modelled from the spec: status codes from the missing `xstatus.h`.
Only their distinctness matters. -/
def XST_SUCCESS : Nat := 0

def XST_DEVICE_BUSY : Nat := 21

def XST_SPI_MODE_FAULT : Nat := 1021

def XST_SPI_TRANSFER_DONE : Nat := 1022

def XST_SPI_TRANSMIT_UNDERRUN : Nat := 1023

def XST_SPI_RECEIVE_OVERRUN : Nat := 1024

/-- The combined state of one `XSpiPs` driver instance and the device it
drives.  Fields `isReady` … `statusCalls` model the C instance structure
(`IsReady`, `IsBusy`, `SendBufferPtr`, `RecvBufferPtr`, `RequestedBytes`,
`RemainingBytes`, `SlaveSelect`, and the status-handler invocations);
fields `cr` … `clocked` model the memory-mapped device: control register,
status register, enabled interrupt mask (IER sets bits, IDR clears bits),
the enable register, the two FIFOs, and the bus (`rxSrc i` is the i-th
byte the remote end drives onto the bus, `clocked` counts bytes clocked
out so far). -/
structure SpiSys where
  isReady : Bool
  isBusy : Bool
  sendBuf : List Nat
  recvBuf : Option (List Nat)
  requestedBytes : Nat
  remainingBytes : Nat
  slaveSelect : Nat
  statusCalls : List (Nat × Nat)
  cr : Nat
  sr : Nat
  ier : Nat
  enabled : Bool
  txFifo : List Nat
  rxFifo : List Nat
  rxSrc : Nat → Nat
  clocked : Nat

/-- `XSpiPs_IsManualChipSelect`: tests the manual-chip-select bit of the
control register. -/
def XSpiPs_IsManualChipSelect (s : SpiSys) : Bool :=
  s.cr &&& XSPIPS_CR_SSFORCE_MASK ≠ 0

/-- `XSpiPs_IsManualStart`: tests the manual-start-enable bit of the
control register. -/
def XSpiPs_IsManualStart (s : SpiSys) : Bool :=
  s.cr &&& XSPIPS_CR_MANSTRTEN_MASK ≠ 0

/-- `XSpiPs_IsMaster`: tests the master-mode bit of the control register. -/
def XSpiPs_IsMaster (s : SpiSys) : Bool :=
  s.cr &&& XSPIPS_CR_MSTREN_MASK ≠ 0

/-- `XSpiPs_SendByte`: push one byte into the transmit FIFO. -/
def XSpiPs_SendByte (s : SpiSys) (b : Nat) : SpiSys :=
  { s with txFifo := s.txFifo ++ [b] }

/-- `XSpiPs_RecvByte`: pop one byte from the receive FIFO (the C macro
casts the 32-bit read to `u8`). -/
def XSpiPs_RecvByte (s : SpiSys) : Nat × SpiSys :=
  (s.rxFifo.headD 0 % 256, { s with rxFifo := s.rxFifo.tail })

/-- `XSpiPs_Enable`: write 1 to the enable register. -/
def XSpiPs_Enable (s : SpiSys) : SpiSys := { s with enabled := true }

/-- `XSpiPs_Disable`: write 0 to the enable register. -/
def XSpiPs_Disable (s : SpiSys) : SpiSys := { s with enabled := false }

/-- The transmit-FIFO fill loop shared verbatim by `XSpiPs_Transfer`,
`XSpiPs_PolledTransfer` and `XSpiPs_InterruptHandler`:
`while (RemainingBytes > 0 && TransCount < XSPIPS_FIFO_DEPTH)` push the
next send-buffer byte, advance the cursor, decrement `RemainingBytes`,
increment `TransCount`.  Returns the state and the final `TransCount`. -/
def fillTxFifo (d : Nat) (s : SpiSys) (transCount : Nat) : SpiSys × Nat :=
  if 0 < s.remainingBytes ∧ transCount < d then
    fillTxFifo d
      { s with txFifo := s.txFifo ++ [s.sendBuf.headD 0],
               sendBuf := s.sendBuf.tail,
               remainingBytes := s.remainingBytes - 1 }
      (transCount + 1)
  else (s, transCount)
termination_by s.remainingBytes
decreasing_by simp; omega

/-- The receive-FIFO drain loop shared by `XSpiPs_PolledTransfer` and
`XSpiPs_InterruptHandler`: `while (TransCount)` pop one byte, store it
through the receive cursor if one was supplied, decrement
`RequestedBytes` and `TransCount`. -/
def drainRxFifo : Nat → SpiSys → SpiSys
  | 0, s => s
  | n + 1, s =>
    let t := XSpiPs_RecvByte s
    drainRxFifo n
      { t.2 with recvBuf := t.2.recvBuf.map (fun l => l ++ [t.1]),
                 requestedBytes := t.2.requestedBytes - 1 }

/-- Modelled from the spec: the polled engine busy-waits on the TXOW
status bit, and the bus guarantees one received byte per transmitted
byte; the wait is therefore modelled by one oracle step in which the
hardware clocks out every byte sitting in the transmit FIFO, delivers one
response byte per clocked byte into the receive FIFO, and raises TXOW. -/
def hwClock (s : SpiSys) : SpiSys :=
  { s with txFifo := [],
           rxFifo := s.rxFifo ++
             (List.range s.txFifo.length).map (fun i => s.rxSrc (s.clocked + i)),
           clocked := s.clocked + s.txFifo.length,
           sr := s.sr ||| XSPIPS_IXR_TXOW_MASK }

/-- The manual-start sequence used by both transfer engines and the
interrupt handler: if master mode and manual start mode, read the control
register, set the manual-start trigger bit, write it back. -/
def manualStartStep (s : SpiSys) : SpiSys :=
  if XSpiPs_IsManualStart s && XSpiPs_IsMaster s then
    { s with cr := s.cr ||| XSPIPS_CR_MANSTRT_MASK }
  else s

/-- The slave-select initialisation done at the start of both transfer
engines: if manual chip-select mode, read the control register, clear the
slave-select field, OR in the cached `SlaveSelect`, write it back. -/
def applySlaveSelectCR (s : SpiSys) : SpiSys :=
  if XSpiPs_IsManualChipSelect s then
    { s with cr := (s.cr &&& (0xFFFFFFFF ^^^ XSPIPS_CR_SSCTRL_MASK)) ||| s.slaveSelect }
  else s

/-- The slave-select deassertion done at the end of a transfer: if manual
chip-select mode, read the control register, set every bit of the
slave-select field (all lines high, none selected), write it back. -/
def deassertSlaveSelectCR (s : SpiSys) : SpiSys :=
  if XSpiPs_IsManualChipSelect s then
    { s with cr := s.cr ||| XSPIPS_CR_SSCTRL_MASK }
  else s

/-- The receive-FIFO clearing loop of `XSpiPs_Abort`:
`while (SR & RXNEMPTY)` pop and discard one byte.  The RXNEMPTY status
bit is hardware-maintained and holds exactly when the receive FIFO is
non-empty, so the loop is modelled directly on the FIFO contents. -/
def rxDrainAll (s : SpiSys) : SpiSys :=
  if s.rxFifo = [] then s
  else rxDrainAll (XSpiPs_RecvByte s).2
termination_by s.rxFifo.length
decreasing_by simp [XSpiPs_RecvByte]; cases h : s.rxFifo <;> simp_all

/-- `XSpiPs_Abort`: disable the device, drain and discard every byte in
the receive FIFO, clear the mode-fault status flag (write-one-to-clear),
zero both byte counters and clear the busy flag. -/
def XSpiPs_Abort (s : SpiSys) : SpiSys :=
  let s1 := rxDrainAll (XSpiPs_Disable s)
  let s2 := { s1 with sr := s1.sr &&& (0xFFFFFFFF ^^^ XSPIPS_IXR_MODF_MASK) }
  { s2 with remainingBytes := 0, requestedBytes := 0, isBusy := false }

/-- `XSpiPs_SetSlaveSelect`: after the `Xil_AssertNonvoid` guards (ready
instance, argument at most `XSPIPS_CR_SSCTRL_MAXIMUM`; a failed assert
returns 0) and the busy check, cache
`((~(1 << SlaveSel)) & XSPIPS_CR_SSCTRL_MAXIMUM) << XSPIPS_CR_SSCTRL_SHIFT`
in the instance and OR it into the control register. -/
def XSpiPs_SetSlaveSelect (s : SpiSys) (slaveSel : Nat) : Nat × SpiSys :=
  if s.isReady ≠ true ∨ ¬ slaveSel ≤ XSPIPS_CR_SSCTRL_MAXIMUM then (0, s)
  else if s.isBusy then (XST_DEVICE_BUSY, s)
  else
    let ss := ((0xFFFFFFFF ^^^ ((1 <<< slaveSel) &&& 0xFFFFFFFF)) &&&
        XSPIPS_CR_SSCTRL_MAXIMUM) <<< XSPIPS_CR_SSCTRL_SHIFT
    let s1 := { s with slaveSelect := ss }
    (XST_SUCCESS, { s1 with cr := s1.cr ||| s1.slaveSelect })

/-- `XSpiPs_GetSlaveSelect`: mask and shift the cached `SlaveSelect` down
to the 4-bit field value `ConfigReg`, then return 0xF when
`(~ConfigReg) > 0x4` (the complement is taken at the `u32` width of
`ConfigReg`) and `(~ConfigReg)/2` otherwise. -/
def XSpiPs_GetSlaveSelect (s : SpiSys) : Nat :=
  if s.isReady ≠ true then 0
  else
    let c1 := s.slaveSelect &&& XSPIPS_CR_SSCTRL_MASK
    let c2 := c1 >>> XSPIPS_CR_SSCTRL_SHIFT
    let c3 := c2 &&& XSPIPS_CR_SSCTRL_MAXIMUM
    if 0x4 < 0xFFFFFFFF ^^^ c3 then 0xF
    else (0xFFFFFFFF ^^^ c3) / 2

/-- `XSpiPs_Transfer` (interrupt-driven start): assert guards, busy
check, claim the busy flag, install buffers and counters, apply the
cached slave select to the control register in manual chip-select mode,
enable the device, clear all write-to-clear status flags, fill the
transmit FIFO once, unmask the default interrupts, and issue the manual
start command in master + manual-start mode.  The send buffer argument
is `none` for a null pointer; `recvNonNull` records whether a receive
buffer was supplied. -/
def XSpiPs_Transfer (d : Nat) (s : SpiSys) (sendBufArg : Option (List Nat))
    (recvNonNull : Bool) (byteCount : Nat) : Nat × SpiSys :=
  if sendBufArg = none ∨ byteCount = 0 ∨ s.isReady ≠ true then (0, s)
  else if s.isBusy then (XST_DEVICE_BUSY, s)
  else
    let s0 := { s with isBusy := true,
                       sendBuf := sendBufArg.getD [],
                       recvBuf := if recvNonNull then some [] else none,
                       requestedBytes := byteCount,
                       remainingBytes := byteCount }
    let s1 := XSpiPs_Enable (applySlaveSelectCR s0)
    let s2 := { s1 with sr := s1.sr &&& (0xFFFFFFFF ^^^ XSPIPS_IXR_WR_TO_CLR_MASK) }
    let s3 := (fillTxFifo d s2 0).1
    let s4 := { s3 with ier := s3.ier ||| XSPIPS_IXR_DFLT_MASK }
    (XST_SUCCESS, manualStartStep s4)

/-- The outer fill/drain loop of `XSpiPs_PolledTransfer`:
`while (RemainingBytes > 0 || RequestedBytes > 0)` fill the transmit
FIFO (from `TransCount = 0`), issue the manual start command if needed,
busy-wait on TXOW (the `hwClock` oracle step), then drain `TransCount`
bytes from the receive FIFO.  `fuel` bounds the number of iterations of
the model; `none` models a loop that never exits.  The returned list
records, per pass, the number of bytes pushed and the number of bytes
retired from the receive side (measured as the decrease of
`RequestedBytes` across the drain). -/
def polledLoop (d : Nat) (fuel : Nat) (s : SpiSys) :
    Option (SpiSys × List (Nat × Nat)) :=
  if 0 < s.remainingBytes ∨ 0 < s.requestedBytes then
    match fuel with
    | 0 => none
    | fuel' + 1 =>
      let f := fillTxFifo d s 0
      let s1 := manualStartStep f.1
      let s2 := hwClock s1
      let s3 := drainRxFifo f.2 s2
      match polledLoop d fuel' s3 with
      | none => none
      | some r => some (r.1, (f.2, s2.requestedBytes - s3.requestedBytes) :: r.2)
  else some (s, [])

/-- `XSpiPs_PolledTransfer`: assert guards, busy check, claim the busy
flag, install buffers and counters, apply the cached slave select in
manual chip-select mode, enable the device, run the outer fill/drain
loop to completion, then deassert the slave-select lines in manual mode,
clear the busy flag and disable the device.  The fuel `byteCount` is
enough for any terminating run (at most one pass per byte). -/
def XSpiPs_PolledTransfer (d : Nat) (s : SpiSys) (sendBufArg : Option (List Nat))
    (recvNonNull : Bool) (byteCount : Nat) :
    Option (Nat × SpiSys × List (Nat × Nat)) :=
  if sendBufArg = none ∨ byteCount = 0 ∨ s.isReady ≠ true then some (0, s, [])
  else if s.isBusy then some (XST_DEVICE_BUSY, s, [])
  else
    let s0 := { s with isBusy := true,
                       sendBuf := sendBufArg.getD [],
                       recvBuf := if recvNonNull then some [] else none,
                       requestedBytes := byteCount,
                       remainingBytes := byteCount }
    let s1 := XSpiPs_Enable (applySlaveSelectCR s0)
    match polledLoop d byteCount s1 with
    | none => none
    | some r =>
      let s2 := deassertSlaveSelectCR r.1
      some (XST_SUCCESS, XSpiPs_Disable { s2 with isBusy := false }, r.2)

/-- The completion block of the TXOW branch of `XSpiPs_InterruptHandler`,
entered when both counters have reached zero after the drain and refill:
mask the default interrupts (IDR write), deassert the slave-select lines
in manual chip-select mode, clear the busy flag, disable the device, and
invoke the status callback with the transfer-done event and the current
`RequestedBytes`. -/
def handlerDoneStage (sB : SpiSys) : SpiSys :=
  let sC := { sB with ier := sB.ier &&& (0xFFFFFFFF ^^^ XSPIPS_IXR_DFLT_MASK) }
  let sD := XSpiPs_Disable { deassertSlaveSelectCR sC with isBusy := false }
  { sD with statusCalls :=
      sD.statusCalls ++ [(XST_SPI_TRANSFER_DONE, sD.requestedBytes)] }

/-- The overflow/underflow block of `XSpiPs_InterruptHandler`, identical
for receive overrun and transmit underrun up to the event code: compute
`RequestedBytes - RemainingBytes`, clear the busy flag, deassert the
slave-select lines in manual chip-select mode, and invoke the status
callback with the given event and the byte count. -/
def handlerFaultStage (event : Nat) (s1 : SpiSys) : SpiSys :=
  let bytesDone := s1.requestedBytes - s1.remainingBytes
  let sF := deassertSlaveSelectCR { s1 with isBusy := false }
  { sF with statusCalls := sF.statusCalls ++ [(event, bytesDone)] }

/-- `XSpiPs_InterruptHandler`: latch the status register, clear its
write-to-clear bits, mask the TXOW interrupt; on a mode fault compute
the byte count as `RequestedBytes - RemainingBytes`, abort, invoke the
callback with the mode-fault event and return; otherwise, on TXOW, drain
`RequestedBytes - RemainingBytes` bytes from the receive FIFO, refill
the transmit FIFO, and either finalise the transfer (mask the default
interrupts, deassert slave select in manual mode, clear busy, disable
the device, invoke the callback with transfer-done and the current
`RequestedBytes`) or re-unmask TXOW and reissue the manual start; then
handle receive-overrun and transmit-underrun by clearing busy,
deasserting slave select in manual mode and invoking the callback with
the respective event and `RequestedBytes - RemainingBytes`. -/
def XSpiPs_InterruptHandler (d : Nat) (s : SpiSys) : SpiSys :=
  if s.isReady ≠ true then s
  else
    let intrStatus := s.sr
    let s0 := { s with
      sr := s.sr &&& (0xFFFFFFFF ^^^ (intrStatus &&& XSPIPS_IXR_WR_TO_CLR_MASK)),
      ier := s.ier &&& (0xFFFFFFFF ^^^ XSPIPS_IXR_TXOW_MASK) }
    if intrStatus &&& XSPIPS_IXR_MODF_MASK = XSPIPS_IXR_MODF_MASK then
      let bytesDone := s0.requestedBytes - s0.remainingBytes
      let s1 := XSpiPs_Abort s0
      { s1 with statusCalls := s1.statusCalls ++ [(XST_SPI_MODE_FAULT, bytesDone)] }
    else
      let s1 :=
        if intrStatus &&& XSPIPS_IXR_TXOW_MASK ≠ 0 then
          let transCount := s0.requestedBytes - s0.remainingBytes
          let sA := drainRxFifo transCount s0
          let sB := (fillTxFifo d sA 0).1
          if sB.remainingBytes = 0 ∧ sB.requestedBytes = 0 then
            handlerDoneStage sB
          else
            manualStartStep { sB with ier := sB.ier ||| XSPIPS_IXR_TXOW_MASK }
        else s0
      let s2 :=
        if intrStatus &&& XSPIPS_IXR_RXOVR_MASK ≠ 0 then
          handlerFaultStage XST_SPI_RECEIVE_OVERRUN s1
        else s1
      if intrStatus &&& XSPIPS_IXR_TXUF_MASK ≠ 0 then
        handlerFaultStage XST_SPI_TRANSMIT_UNDERRUN s2
      else s2

/-- The per-pass byte counts of the polled fill/drain loop: starting from
`n` outstanding bytes with FIFO depth `d`, each pass moves
`min n d` bytes. -/
def passSpec (d : Nat) (n : Nat) : List Nat :=
  if 0 < n ∧ 0 < d then min n d :: passSpec d (n - min n d) else []
termination_by n
decreasing_by omega

/-- An idle, freshly initialised instance: ready, not busy, counters
zero, FIFOs empty, device disabled, slave-select cache zero, the bus
driving zero bytes. -/
def initSys : SpiSys :=
  { isReady := true, isBusy := false, sendBuf := [], recvBuf := none,
    requestedBytes := 0, remainingBytes := 0, slaveSelect := 0,
    statusCalls := [], cr := 0, sr := 0, ier := 0, enabled := false,
    txFifo := [], rxFifo := [], rxSrc := fun _ => 0, clocked := 0 }


/-- A ready instance with a transfer in flight (busy flag set). -/
def busySys : SpiSys := { initSys with isBusy := true }

/-- Mid-transfer state of a 10-byte transfer: 6 bytes already retired on
the receive side and all 10 queued to the transmit FIFO
(`requestedBytes = 4`, `remainingBytes = 0`), the 4 in-flight response
bytes sitting in the receive FIFO, and the mode-fault flag latched. -/
def modfSys : SpiSys :=
  { initSys with isBusy := true, requestedBytes := 4, remainingBytes := 0,
                 recvBuf := some [1, 2, 3, 4, 5, 6], rxFifo := [7, 8, 9, 10],
                 sr := XSPIPS_IXR_MODF_MASK, enabled := true }

/-- The same mode-fault scenario in manual chip-select mode with line 0
asserted (control-register select field 0xE). -/
def modfCsSys : SpiSys :=
  { modfSys with cr := XSPIPS_CR_SSFORCE_MASK ||| (0xE <<< 10) }

/-- Mid-transfer state of a 5-byte transfer (all 5 queued, none retired)
with the receive-overrun flag latched, in manual chip-select mode. -/
def ovrSys : SpiSys :=
  { initSys with isBusy := true, requestedBytes := 5, remainingBytes := 0,
                 recvBuf := some [], sr := XSPIPS_IXR_RXOVR_MASK,
                 cr := XSPIPS_CR_SSFORCE_MASK, enabled := true }

/-- The same scenario with the transmit-underrun flag latched instead. -/
def ufSys : SpiSys := { ovrSys with sr := XSPIPS_IXR_TXUF_MASK }

/-- The final interrupt of a 2-byte transfer: both bytes queued and
clocked, the 2 response bytes in the receive FIFO, TXOW latched, manual
chip-select mode, default interrupts unmasked. -/
def doneSys : SpiSys :=
  { initSys with isBusy := true, requestedBytes := 2, remainingBytes := 0,
                 recvBuf := some [], rxFifo := [0xA, 0xB],
                 sr := XSPIPS_IXR_TXOW_MASK, ier := XSPIPS_IXR_DFLT_MASK,
                 cr := XSPIPS_CR_SSFORCE_MASK, enabled := true }
theorem fillTxFifo_spec (d : Nat) : ∀ (n : Nat) (s : SpiSys) (tc : Nat), s.remainingBytes = n →
    (fillTxFifo d s tc).2 = tc + min n (d - tc) ∧
    (fillTxFifo d s tc).1.remainingBytes = n - min n (d - tc) ∧
    (fillTxFifo d s tc).1.requestedBytes = s.requestedBytes ∧
    (fillTxFifo d s tc).1.txFifo.length = s.txFifo.length + min n (d - tc) ∧
    (fillTxFifo d s tc).1.isReady = s.isReady ∧
    (fillTxFifo d s tc).1.isBusy = s.isBusy ∧
    (fillTxFifo d s tc).1.recvBuf = s.recvBuf ∧
    (fillTxFifo d s tc).1.slaveSelect = s.slaveSelect ∧
    (fillTxFifo d s tc).1.statusCalls = s.statusCalls ∧
    (fillTxFifo d s tc).1.cr = s.cr ∧
    (fillTxFifo d s tc).1.sr = s.sr ∧
    (fillTxFifo d s tc).1.ier = s.ier ∧
    (fillTxFifo d s tc).1.enabled = s.enabled ∧
    (fillTxFifo d s tc).1.rxFifo = s.rxFifo ∧
    (fillTxFifo d s tc).1.rxSrc = s.rxSrc ∧
    (fillTxFifo d s tc).1.clocked = s.clocked := by
  intro n
  induction n with
  | zero =>
    intro s tc h
    rw [fillTxFifo]
    simp [h]
  | succ k ih =>
    intro s tc h
    rw [fillTxFifo]
    by_cases htc : tc < d
    · rw [if_pos ⟨by omega, htc⟩]
      have hrec := ih { s with txFifo := s.txFifo ++ [s.sendBuf.headD 0],
                               sendBuf := s.sendBuf.tail,
                               remainingBytes := s.remainingBytes - 1 } (tc + 1) (by simp [h])
      simp only [List.length_append, List.length_cons, List.length_nil] at hrec
      obtain ⟨e1, e2, e3, e4, e5, e6, e7, e8, e9, e10, e11, e12, e13, e14, e15, e16⟩ := hrec
      refine ⟨?_, ?_, e3, ?_, e5, e6, e7, e8, e9, e10, e11, e12, e13, e14, e15, e16⟩
      · rw [e1]; omega
      · rw [e2]; omega
      · rw [e4]; omega
    · rw [if_neg (by omega)]
      have : d - tc = 0 := by omega
      simp [this, h]

theorem drainRxFifo_spec : ∀ (n : Nat) (s : SpiSys),
    (drainRxFifo n s).requestedBytes = s.requestedBytes - n ∧
    (drainRxFifo n s).remainingBytes = s.remainingBytes ∧
    (drainRxFifo n s).rxFifo = s.rxFifo.drop n ∧
    (drainRxFifo n s).sendBuf = s.sendBuf ∧
    (drainRxFifo n s).txFifo = s.txFifo ∧
    (drainRxFifo n s).isReady = s.isReady ∧
    (drainRxFifo n s).isBusy = s.isBusy ∧
    (drainRxFifo n s).recvBuf.isSome = s.recvBuf.isSome ∧
    (drainRxFifo n s).slaveSelect = s.slaveSelect ∧
    (drainRxFifo n s).statusCalls = s.statusCalls ∧
    (drainRxFifo n s).cr = s.cr ∧
    (drainRxFifo n s).sr = s.sr ∧
    (drainRxFifo n s).ier = s.ier ∧
    (drainRxFifo n s).enabled = s.enabled ∧
    (drainRxFifo n s).rxSrc = s.rxSrc ∧
    (drainRxFifo n s).clocked = s.clocked := by
  intro n
  induction n with
  | zero => intro s; simp [drainRxFifo]
  | succ k ih =>
    intro s
    have hrec := ih { (XSpiPs_RecvByte s).2 with
      recvBuf := (XSpiPs_RecvByte s).2.recvBuf.map (fun l => l ++ [(XSpiPs_RecvByte s).1]),
      requestedBytes := (XSpiPs_RecvByte s).2.requestedBytes - 1 }
    simp only [XSpiPs_RecvByte] at hrec
    obtain ⟨e1, e2, e3, e4, e5, e6, e7, e8, e9, e10, e11, e12, e13, e14, e15, e16⟩ := hrec
    simp only [drainRxFifo, XSpiPs_RecvByte]
    refine ⟨?_, e2, ?_, e4, e5, e6, e7, ?_, e9, e10, e11, e12, e13, e14, e15, e16⟩
    · rw [e1]; omega
    · rw [e3]; cases s.rxFifo <;> simp
    · rw [e8]; cases s.recvBuf <;> simp

theorem manualStartStep_frame (s : SpiSys) :
    (manualStartStep s).isReady = s.isReady ∧
    (manualStartStep s).isBusy = s.isBusy ∧
    (manualStartStep s).sendBuf = s.sendBuf ∧
    (manualStartStep s).recvBuf = s.recvBuf ∧
    (manualStartStep s).requestedBytes = s.requestedBytes ∧
    (manualStartStep s).remainingBytes = s.remainingBytes ∧
    (manualStartStep s).slaveSelect = s.slaveSelect ∧
    (manualStartStep s).statusCalls = s.statusCalls ∧
    (manualStartStep s).sr = s.sr ∧
    (manualStartStep s).ier = s.ier ∧
    (manualStartStep s).enabled = s.enabled ∧
    (manualStartStep s).txFifo = s.txFifo ∧
    (manualStartStep s).rxFifo = s.rxFifo ∧
    (manualStartStep s).rxSrc = s.rxSrc ∧
    (manualStartStep s).clocked = s.clocked := by
  unfold manualStartStep
  split <;> simp

theorem deassertSlaveSelectCR_frame (s : SpiSys) :
    (deassertSlaveSelectCR s).isReady = s.isReady ∧
    (deassertSlaveSelectCR s).isBusy = s.isBusy ∧
    (deassertSlaveSelectCR s).sendBuf = s.sendBuf ∧
    (deassertSlaveSelectCR s).recvBuf = s.recvBuf ∧
    (deassertSlaveSelectCR s).requestedBytes = s.requestedBytes ∧
    (deassertSlaveSelectCR s).remainingBytes = s.remainingBytes ∧
    (deassertSlaveSelectCR s).slaveSelect = s.slaveSelect ∧
    (deassertSlaveSelectCR s).statusCalls = s.statusCalls ∧
    (deassertSlaveSelectCR s).sr = s.sr ∧
    (deassertSlaveSelectCR s).ier = s.ier ∧
    (deassertSlaveSelectCR s).enabled = s.enabled ∧
    (deassertSlaveSelectCR s).txFifo = s.txFifo ∧
    (deassertSlaveSelectCR s).rxFifo = s.rxFifo ∧
    (deassertSlaveSelectCR s).rxSrc = s.rxSrc ∧
    (deassertSlaveSelectCR s).clocked = s.clocked := by
  unfold deassertSlaveSelectCR
  split <;> simp

theorem applySlaveSelectCR_frame (s : SpiSys) :
    (applySlaveSelectCR s).isReady = s.isReady ∧
    (applySlaveSelectCR s).isBusy = s.isBusy ∧
    (applySlaveSelectCR s).sendBuf = s.sendBuf ∧
    (applySlaveSelectCR s).recvBuf = s.recvBuf ∧
    (applySlaveSelectCR s).requestedBytes = s.requestedBytes ∧
    (applySlaveSelectCR s).remainingBytes = s.remainingBytes ∧
    (applySlaveSelectCR s).slaveSelect = s.slaveSelect ∧
    (applySlaveSelectCR s).statusCalls = s.statusCalls ∧
    (applySlaveSelectCR s).sr = s.sr ∧
    (applySlaveSelectCR s).ier = s.ier ∧
    (applySlaveSelectCR s).enabled = s.enabled ∧
    (applySlaveSelectCR s).txFifo = s.txFifo ∧
    (applySlaveSelectCR s).rxFifo = s.rxFifo ∧
    (applySlaveSelectCR s).rxSrc = s.rxSrc ∧
    (applySlaveSelectCR s).clocked = s.clocked := by
  unfold applySlaveSelectCR
  split <;> simp

theorem rxDrainAll_spec : ∀ (l : List Nat) (s : SpiSys), s.rxFifo = l →
    rxDrainAll s = { s with rxFifo := [] } := by
  intro l
  induction l with
  | nil =>
    intro s h
    rw [rxDrainAll, if_pos h]
    cases s
    simp_all
  | cons a t ih =>
    intro s h
    rw [rxDrainAll, if_neg (by simp [h])]
    have := ih (XSpiPs_RecvByte s).2 (by simp [XSpiPs_RecvByte, h])
    rw [this]
    simp [XSpiPs_RecvByte]

theorem XSpiPs_Abort_spec (s : SpiSys) :
    XSpiPs_Abort s =
      { s with enabled := false, rxFifo := [],
               sr := s.sr &&& (0xFFFFFFFF ^^^ XSPIPS_IXR_MODF_MASK),
               remainingBytes := 0, requestedBytes := 0, isBusy := false } := by
  unfold XSpiPs_Abort
  rw [rxDrainAll_spec (XSpiPs_Disable s).rxFifo (XSpiPs_Disable s) rfl]
  simp [XSpiPs_Disable]

theorem passSpec_zero (d : Nat) : passSpec d 0 = [] := by
  rw [passSpec]; simp

theorem passSpec_pos (d n : Nat) (hd : 0 < d) (hn : 0 < n) :
    passSpec d n = min n d :: passSpec d (n - min n d) := by
  rw [passSpec, if_pos ⟨hn, hd⟩]

theorem passSpec_sum (d : Nat) (hd : 0 < d) : ∀ n, (passSpec d n).sum = n := by
  intro n
  induction n using Nat.strong_induction_on with
  | _ n ih =>
    by_cases hn : 0 < n
    · rw [passSpec_pos d n hd hn]
      simp only [List.sum_cons]
      rw [ih (n - min n d) (by omega)]
      omega
    · have hz : n = 0 := by omega
      subst hz
      rw [passSpec_zero]
      rfl

theorem passSpec_length (d : Nat) (hd : 0 < d) :
    ∀ n, (passSpec d n).length = (n + d - 1) / d := by
  intro n
  induction n using Nat.strong_induction_on with
  | _ n ih =>
    by_cases hn : 0 < n
    · rw [passSpec_pos d n hd hn]
      simp only [List.length_cons]
      rw [ih (n - min n d) (by omega)]
      rcases le_or_lt n d with hle | hlt
      · have e0 : n - min n d = 0 := by omega
        rw [e0]
        have e1 : (0 + d - 1) / d = 0 := Nat.div_eq_of_lt (by omega)
        have e2 : (n + d - 1) / d = 1 := Nat.div_eq_of_lt_le (by omega) (by omega)
        omega
      · have ha : (n + d - 1) / d = (n - 1) / d + 1 := by
          have e : n + d - 1 = (n - 1) + d := by omega
          rw [e, Nat.add_div_right _ hd]
        have hb : (n - 1) / d = (n - 1 - d) / d + 1 := by
          have e : n - 1 = (n - 1 - d) + d := by omega
          conv_lhs => rw [e]
          rw [Nat.add_div_right _ hd]
        have hc : n - min n d + d - 1 = (n - 1 - d) + d := by omega
        rw [hc, Nat.add_div_right _ hd, ha, hb]
    · have hz : n = 0 := by omega
      subst hz
      rw [passSpec_zero]
      have e1 : (d - 1) / d = 0 := Nat.div_eq_of_lt (by omega)
      simp [e1]

theorem polledLoop_exit (d fuel : Nat) (s : SpiSys)
    (h : ¬(0 < s.remainingBytes ∨ 0 < s.requestedBytes)) :
    polledLoop d fuel s = some (s, []) := by
  rw [polledLoop.eq_def, if_neg h]

theorem polledLoop_step (d fuel : Nat) (s : SpiSys)
    (h : 0 < s.remainingBytes ∨ 0 < s.requestedBytes) :
    polledLoop d (fuel + 1) s =
      match polledLoop d fuel
          (drainRxFifo (fillTxFifo d s 0).2
            (hwClock (manualStartStep (fillTxFifo d s 0).1))) with
      | none => none
      | some r => some (r.1, ((fillTxFifo d s 0).2,
          (hwClock (manualStartStep (fillTxFifo d s 0).1)).requestedBytes -
          (drainRxFifo (fillTxFifo d s 0).2
            (hwClock (manualStartStep (fillTxFifo d s 0).1))).requestedBytes) :: r.2) := by
  rw [polledLoop.eq_def, if_pos h]

theorem polledLoop_spec (d : Nat) (hd : 0 < d) : ∀ (n fuel : Nat) (s : SpiSys),
    s.remainingBytes = n → s.requestedBytes = n → s.txFifo = [] → s.rxFifo = [] →
    n ≤ fuel →
    ∃ s', polledLoop d fuel s = some (s', (passSpec d n).map (fun m => (m, m))) ∧
      s'.remainingBytes = 0 ∧ s'.requestedBytes = 0 ∧
      s'.clocked = s.clocked + n ∧
      s'.isReady = s.isReady ∧ s'.isBusy = s.isBusy ∧
      s'.statusCalls = s.statusCalls ∧ s'.enabled = s.enabled ∧
      s'.slaveSelect = s.slaveSelect ∧ s'.txFifo = [] ∧ s'.rxFifo = [] ∧
      s'.recvBuf.isSome = s.recvBuf.isSome := by
  intro n
  induction n using Nat.strong_induction_on with
  | _ n ih =>
    intro fuel s h1 h2 h3 h4 hfuel
    by_cases hn : 0 < n
    · obtain ⟨fuel', rfl⟩ : ∃ f', fuel = f' + 1 := ⟨fuel - 1, by omega⟩
      have hcond : 0 < s.remainingBytes ∨ 0 < s.requestedBytes := by omega
      have hstep := polledLoop_step d fuel' s hcond
      obtain ⟨f1, f2, f3, f4, f5, f6, f7, f8, f9, f10, f11, f12, f13, f14, f15, f16⟩ :=
        fillTxFifo_spec d n s 0 h1
      simp only [Nat.sub_zero, Nat.zero_add] at f1 f2 f4
      obtain ⟨m1, m2, m3, m4, m5, m6, m7, m8, m9, m10, m11, m12, m13, m14, m15⟩ :=
        manualStartStep_frame (fillTxFifo d s 0).1
      obtain ⟨g1, g2, g3, g4, g5, g6, g7, g8, g9, g10, g11, g12, g13, g14, g15, g16⟩ :=
        drainRxFifo_spec (fillTxFifo d s 0).2
          (hwClock (manualStartStep (fillTxFifo d s 0).1))
      -- facts about the state after the hardware clocks the batch out
      have c_req : (hwClock (manualStartStep (fillTxFifo d s 0).1)).requestedBytes = n := by
        simp only [hwClock]
        rw [m5, f3, h2]
      have c_rem : (hwClock (manualStartStep (fillTxFifo d s 0).1)).remainingBytes
          = n - min n d := by
        simp only [hwClock]
        rw [m6, f2]
      have c_rxlen : (hwClock (manualStartStep (fillTxFifo d s 0).1)).rxFifo.length
          = min n d := by
        simp only [hwClock, List.length_append, List.length_map, List.length_range]
        rw [m13, m12, f14, h4, f4, h3]
        simp
      have c_clocked : (hwClock (manualStartStep (fillTxFifo d s 0).1)).clocked
          = s.clocked + min n d := by
        simp only [hwClock]
        rw [m15, m12, f16, f4, h3]
        simp
      -- facts about the state after the drain
      have d_req : (drainRxFifo (fillTxFifo d s 0).2
          (hwClock (manualStartStep (fillTxFifo d s 0).1))).requestedBytes = n - min n d := by
        rw [g1, c_req, f1]
      have d_rem : (drainRxFifo (fillTxFifo d s 0).2
          (hwClock (manualStartStep (fillTxFifo d s 0).1))).remainingBytes = n - min n d := by
        rw [g2, c_rem]
      have d_rx : (drainRxFifo (fillTxFifo d s 0).2
          (hwClock (manualStartStep (fillTxFifo d s 0).1))).rxFifo = [] := by
        rw [g3, f1, ← c_rxlen, List.drop_length]
      have d_tx : (drainRxFifo (fillTxFifo d s 0).2
          (hwClock (manualStartStep (fillTxFifo d s 0).1))).txFifo = [] := by
        rw [g5]
        simp [hwClock]
      obtain ⟨s'', hloop, p1, p2, p3, p4, p5, p6, p7, p8, p9, p10, p11⟩ :=
        ih (n - min n d) (by omega) fuel'
          (drainRxFifo (fillTxFifo d s 0).2
            (hwClock (manualStartStep (fillTxFifo d s 0).1)))
          d_rem d_req d_tx d_rx (by omega)
      rw [hloop] at hstep
      have hdrained : (hwClock (manualStartStep (fillTxFifo d s 0).1)).requestedBytes -
          (drainRxFifo (fillTxFifo d s 0).2
            (hwClock (manualStartStep (fillTxFifo d s 0).1))).requestedBytes = min n d := by
        rw [c_req, d_req]
        omega
      rw [hdrained, f1] at hstep
      refine ⟨s'', ?_, p1, p2, ?_, ?_, ?_, ?_, ?_, ?_, p9, p10, ?_⟩
      · rw [hstep, passSpec_pos d n hd hn, List.map_cons]
      · -- clocked
        rw [p3, g16, c_clocked]
        omega
      · rw [p4, g6]
        simp only [hwClock]
        rw [m1, f5]
      · rw [p5, g7]
        simp only [hwClock]
        rw [m2, f6]
      · rw [p6, g10]
        simp only [hwClock]
        rw [m8, f9]
      · rw [p7, g14]
        simp only [hwClock]
        rw [m11, f13]
      · rw [p8, g9]
        simp only [hwClock]
        rw [m7, f8]
      · rw [p11, g8]
        simp only [hwClock]
        rw [m4, f7]
    · have hz : n = 0 := by omega
      subst hz
      have hcond : ¬(0 < s.remainingBytes ∨ 0 < s.requestedBytes) := by omega
      refine ⟨s, ?_, by omega, by omega, by omega, rfl, rfl, rfl, rfl, rfl, h3, h4, rfl⟩
      rw [polledLoop_exit d fuel s hcond, passSpec_zero]
      rfl

theorem setupState_facts (s : SpiSys) (buf : List Nat) (rcv : Option (List Nat)) (n : Nat) :
    (XSpiPs_Enable (applySlaveSelectCR
      { s with isBusy := true, sendBuf := buf, recvBuf := rcv,
               requestedBytes := n, remainingBytes := n })).remainingBytes = n ∧
    (XSpiPs_Enable (applySlaveSelectCR
      { s with isBusy := true, sendBuf := buf, recvBuf := rcv,
               requestedBytes := n, remainingBytes := n })).requestedBytes = n ∧
    (XSpiPs_Enable (applySlaveSelectCR
      { s with isBusy := true, sendBuf := buf, recvBuf := rcv,
               requestedBytes := n, remainingBytes := n })).txFifo = s.txFifo ∧
    (XSpiPs_Enable (applySlaveSelectCR
      { s with isBusy := true, sendBuf := buf, recvBuf := rcv,
               requestedBytes := n, remainingBytes := n })).rxFifo = s.rxFifo ∧
    (XSpiPs_Enable (applySlaveSelectCR
      { s with isBusy := true, sendBuf := buf, recvBuf := rcv,
               requestedBytes := n, remainingBytes := n })).clocked = s.clocked ∧
    (XSpiPs_Enable (applySlaveSelectCR
      { s with isBusy := true, sendBuf := buf, recvBuf := rcv,
               requestedBytes := n, remainingBytes := n })).isBusy = true ∧
    (XSpiPs_Enable (applySlaveSelectCR
      { s with isBusy := true, sendBuf := buf, recvBuf := rcv,
               requestedBytes := n, remainingBytes := n })).isReady = s.isReady ∧
    (XSpiPs_Enable (applySlaveSelectCR
      { s with isBusy := true, sendBuf := buf, recvBuf := rcv,
               requestedBytes := n, remainingBytes := n })).statusCalls = s.statusCalls ∧
    (XSpiPs_Enable (applySlaveSelectCR
      { s with isBusy := true, sendBuf := buf, recvBuf := rcv,
               requestedBytes := n, remainingBytes := n })).enabled = true ∧
    (XSpiPs_Enable (applySlaveSelectCR
      { s with isBusy := true, sendBuf := buf, recvBuf := rcv,
               requestedBytes := n, remainingBytes := n })).recvBuf = rcv := by
  obtain ⟨a1, a2, a3, a4, a5, a6, a7, a8, a9, a10, a11, a12, a13, a14, a15⟩ :=
    applySlaveSelectCR_frame
      { s with isBusy := true, sendBuf := buf, recvBuf := rcv,
               requestedBytes := n, remainingBytes := n }
  refine ⟨?_, ?_, ?_, ?_, ?_, ?_, ?_, ?_, ?_, ?_⟩ <;>
    simp only [XSpiPs_Enable] <;>
    simp [a1, a2, a3, a4, a5, a6, a7, a8, a9, a10, a11, a12, a13, a14, a15]

/-- Helper: the full pass structure of a successful polled transfer. -/
theorem polledTransfer_pass_structure (d : Nat) (s : SpiSys) (data : List Nat)
    (rb : Bool) (n : Nat) (hd : 0 < d) (hn : 0 < n)
    (hready : s.isReady = true) (hbusy : s.isBusy = false)
    (htx : s.txFifo = []) (hrx : s.rxFifo = []) :
    ∃ s', XSpiPs_PolledTransfer d s (some data) rb n =
        some (XST_SUCCESS, s', (passSpec d n).map (fun m => (m, m))) ∧
      (passSpec d n).length = (n + d - 1) / d ∧
      (passSpec d n).sum = n ∧
      (∀ p ∈ (passSpec d n).map (fun m => (m, m)), p.2 = p.1) ∧
      s'.requestedBytes = 0 ∧ s'.remainingBytes = 0 ∧
      s'.clocked = s.clocked + n ∧
      s'.isBusy = false ∧ s'.enabled = false := by
  obtain ⟨q1, q2, q3, q4, q5, q6, q7, q8, q9, q10⟩ :=
    setupState_facts s data (if rb then some [] else none) n
  obtain ⟨s'', hloop, p1, p2, p3, p4, p5, p6, p7, p8, p9, p10, p11⟩ :=
    polledLoop_spec d hd n n
      (XSpiPs_Enable (applySlaveSelectCR
        { s with isBusy := true, sendBuf := data,
                 recvBuf := if rb then some [] else none,
                 requestedBytes := n, remainingBytes := n }))
      q1 q2 (q3.trans htx) (q4.trans hrx) (le_refl n)
  obtain ⟨b1, b2, b3, b4, b5, b6, b7, b8, b9, b10, b11, b12, b13, b14, b15⟩ :=
    deassertSlaveSelectCR_frame s''
  refine ⟨XSpiPs_Disable { deassertSlaveSelectCR s'' with isBusy := false },
    ?_, passSpec_length d hd n, passSpec_sum d hd n, ?_, ?_, ?_, ?_, ?_, ?_⟩
  · simp only [XSpiPs_PolledTransfer, Option.getD_some]
    rw [if_neg (by simp [hready]; omega)]
    rw [if_neg (by simp [hbusy])]
    rw [hloop]
  · intro p hp
    simp only [List.mem_map] at hp
    obtain ⟨m, _, rfl⟩ := hp
    rfl
  · simp [XSpiPs_Disable, b5, p2]
  · simp [XSpiPs_Disable, b6, p1]
  · simp [XSpiPs_Disable, b15, p3, q5]
  · simp [XSpiPs_Disable, b2, p5]
  · simp [XSpiPs_Disable]

theorem ssEncode_high (k' : Nat) (h4 : 4 ≤ k') (h15 : k' ≤ 15) :
    ((0xFFFFFFFF ^^^ ((1 <<< k') &&& 0xFFFFFFFF)) &&& XSPIPS_CR_SSCTRL_MAXIMUM) <<<
        XSPIPS_CR_SSCTRL_SHIFT =
      XSPIPS_CR_SSCTRL_MAXIMUM <<< XSPIPS_CR_SSCTRL_SHIFT := by
  interval_cases k' <;> decide

theorem handlerModf_props (d : Nat) (s : SpiSys)
    (hready : s.isReady = true)
    (hmodf : s.sr &&& XSPIPS_IXR_MODF_MASK = XSPIPS_IXR_MODF_MASK) :
    (XSpiPs_InterruptHandler d s).statusCalls =
      s.statusCalls ++ [(XST_SPI_MODE_FAULT, s.requestedBytes - s.remainingBytes)] ∧
    (XSpiPs_InterruptHandler d s).isBusy = false ∧
    (XSpiPs_InterruptHandler d s).rxFifo = [] ∧
    (XSpiPs_InterruptHandler d s).requestedBytes = 0 ∧
    (XSpiPs_InterruptHandler d s).remainingBytes = 0 ∧
    (XSpiPs_InterruptHandler d s).enabled = false ∧
    (XSpiPs_InterruptHandler d s).cr = s.cr := by
  simp only [XSpiPs_InterruptHandler]
  rw [if_neg (by simp [hready]), if_pos hmodf, XSpiPs_Abort_spec]
  simp

theorem handlerFaultStage_spec (ev : Nat) (x : SpiSys) :
    (handlerFaultStage ev x).statusCalls =
      x.statusCalls ++ [(ev, x.requestedBytes - x.remainingBytes)] ∧
    (handlerFaultStage ev x).isBusy = false ∧
    (handlerFaultStage ev x).requestedBytes = x.requestedBytes ∧
    (handlerFaultStage ev x).remainingBytes = x.remainingBytes ∧
    (handlerFaultStage ev x).enabled = x.enabled ∧
    (handlerFaultStage ev x).rxFifo = x.rxFifo ∧
    (handlerFaultStage ev x).txFifo = x.txFifo ∧
    (handlerFaultStage ev x).sr = x.sr ∧
    (handlerFaultStage ev x).ier = x.ier ∧
    (handlerFaultStage ev x).isReady = x.isReady ∧
    (handlerFaultStage ev x).sendBuf = x.sendBuf ∧
    (handlerFaultStage ev x).recvBuf = x.recvBuf ∧
    (handlerFaultStage ev x).clocked = x.clocked ∧
    (handlerFaultStage ev x).cr =
      (if XSpiPs_IsManualChipSelect x then x.cr ||| XSPIPS_CR_SSCTRL_MASK
       else x.cr) := by
  unfold handlerFaultStage deassertSlaveSelectCR XSpiPs_IsManualChipSelect
  split <;> simp_all

theorem handlerDoneStage_spec (x : SpiSys) :
    (handlerDoneStage x).statusCalls =
      x.statusCalls ++ [(XST_SPI_TRANSFER_DONE, x.requestedBytes)] ∧
    (handlerDoneStage x).isBusy = false ∧
    (handlerDoneStage x).enabled = false ∧
    (handlerDoneStage x).requestedBytes = x.requestedBytes ∧
    (handlerDoneStage x).remainingBytes = x.remainingBytes ∧
    (handlerDoneStage x).ier = x.ier &&& (0xFFFFFFFF ^^^ XSPIPS_IXR_DFLT_MASK) ∧
    (handlerDoneStage x).rxFifo = x.rxFifo ∧
    (handlerDoneStage x).sr = x.sr ∧
    (handlerDoneStage x).isReady = x.isReady ∧
    (handlerDoneStage x).cr =
      (if XSpiPs_IsManualChipSelect x then x.cr ||| XSPIPS_CR_SSCTRL_MASK
       else x.cr) := by
  unfold handlerDoneStage XSpiPs_Disable deassertSlaveSelectCR XSpiPs_IsManualChipSelect
  split <;> simp_all

theorem handlerRxOvr_props (d : Nat) (s : SpiSys)
    (hready : s.isReady = true)
    (hmodf0 : s.sr &&& XSPIPS_IXR_MODF_MASK = 0)
    (htxow0 : s.sr &&& XSPIPS_IXR_TXOW_MASK = 0)
    (hrxovr : s.sr &&& XSPIPS_IXR_RXOVR_MASK ≠ 0)
    (htxuf0 : s.sr &&& XSPIPS_IXR_TXUF_MASK = 0) :
    (XSpiPs_InterruptHandler d s).statusCalls =
      s.statusCalls ++ [(XST_SPI_RECEIVE_OVERRUN, s.requestedBytes - s.remainingBytes)] ∧
    (XSpiPs_InterruptHandler d s).isBusy = false ∧
    (XSpiPs_InterruptHandler d s).enabled = s.enabled ∧
    (XSpiPs_InterruptHandler d s).requestedBytes = s.requestedBytes ∧
    (XSpiPs_InterruptHandler d s).remainingBytes = s.remainingBytes ∧
    (XSpiPs_InterruptHandler d s).cr =
      (if XSpiPs_IsManualChipSelect s then s.cr ||| XSPIPS_CR_SSCTRL_MASK
       else s.cr) := by
  obtain ⟨k1, k2, k3, k4, k5, k6, k7, k8, k9, k10, k11, k12, k13, k14⟩ :=
    handlerFaultStage_spec XST_SPI_RECEIVE_OVERRUN
      { s with sr := s.sr &&& (0xFFFFFFFF ^^^ (s.sr &&& XSPIPS_IXR_WR_TO_CLR_MASK)),
               ier := s.ier &&& (0xFFFFFFFF ^^^ XSPIPS_IXR_TXOW_MASK) }
  simp only [XSpiPs_InterruptHandler]
  rw [if_neg (by simp [hready]), if_neg (by rw [hmodf0]; decide),
      if_neg (not_not_intro htxow0), if_pos hrxovr, if_neg (not_not_intro htxuf0)]
  refine ⟨?_, k2, ?_, ?_, ?_, ?_⟩
  · rw [k1]
  · rw [k5]
  · rw [k3]
  · rw [k4]
  · rw [k14]
    simp [XSpiPs_IsManualChipSelect]

theorem handlerTxUf_props (d : Nat) (s : SpiSys)
    (hready : s.isReady = true)
    (hmodf0 : s.sr &&& XSPIPS_IXR_MODF_MASK = 0)
    (htxow0 : s.sr &&& XSPIPS_IXR_TXOW_MASK = 0)
    (hrxovr0 : s.sr &&& XSPIPS_IXR_RXOVR_MASK = 0)
    (htxuf : s.sr &&& XSPIPS_IXR_TXUF_MASK ≠ 0) :
    (XSpiPs_InterruptHandler d s).statusCalls =
      s.statusCalls ++ [(XST_SPI_TRANSMIT_UNDERRUN, s.requestedBytes - s.remainingBytes)] ∧
    (XSpiPs_InterruptHandler d s).isBusy = false ∧
    (XSpiPs_InterruptHandler d s).enabled = s.enabled ∧
    (XSpiPs_InterruptHandler d s).requestedBytes = s.requestedBytes ∧
    (XSpiPs_InterruptHandler d s).remainingBytes = s.remainingBytes ∧
    (XSpiPs_InterruptHandler d s).cr =
      (if XSpiPs_IsManualChipSelect s then s.cr ||| XSPIPS_CR_SSCTRL_MASK
       else s.cr) := by
  obtain ⟨k1, k2, k3, k4, k5, k6, k7, k8, k9, k10, k11, k12, k13, k14⟩ :=
    handlerFaultStage_spec XST_SPI_TRANSMIT_UNDERRUN
      { s with sr := s.sr &&& (0xFFFFFFFF ^^^ (s.sr &&& XSPIPS_IXR_WR_TO_CLR_MASK)),
               ier := s.ier &&& (0xFFFFFFFF ^^^ XSPIPS_IXR_TXOW_MASK) }
  simp only [XSpiPs_InterruptHandler]
  rw [if_neg (by simp [hready]), if_neg (by rw [hmodf0]; decide),
      if_neg (not_not_intro htxow0), if_neg (not_not_intro hrxovr0), if_pos htxuf]
  refine ⟨?_, k2, ?_, ?_, ?_, ?_⟩
  · rw [k1]
  · rw [k5]
  · rw [k3]
  · rw [k4]
  · rw [k14]
    simp [XSpiPs_IsManualChipSelect]

theorem handlerComplete_props (d : Nat) (s : SpiSys)
    (hready : s.isReady = true)
    (hmodf0 : s.sr &&& XSPIPS_IXR_MODF_MASK = 0)
    (htxow : s.sr &&& XSPIPS_IXR_TXOW_MASK ≠ 0)
    (hrxovr0 : s.sr &&& XSPIPS_IXR_RXOVR_MASK = 0)
    (htxuf0 : s.sr &&& XSPIPS_IXR_TXUF_MASK = 0)
    (hrem : s.remainingBytes = 0) :
    (XSpiPs_InterruptHandler d s).statusCalls =
      s.statusCalls ++ [(XST_SPI_TRANSFER_DONE, 0)] ∧
    (XSpiPs_InterruptHandler d s).isBusy = false ∧
    (XSpiPs_InterruptHandler d s).enabled = false ∧
    (XSpiPs_InterruptHandler d s).requestedBytes = 0 ∧
    (XSpiPs_InterruptHandler d s).remainingBytes = 0 ∧
    (XSpiPs_InterruptHandler d s).ier &&& XSPIPS_IXR_DFLT_MASK = 0 ∧
    (XSpiPs_InterruptHandler d s).cr =
      (if XSpiPs_IsManualChipSelect s then s.cr ||| XSPIPS_CR_SSCTRL_MASK
       else s.cr) := by
  obtain ⟨d1, d2, d3, d4, d5, d6, d7, d8, d9, d10, d11, d12, d13, d14, d15, d16⟩ :=
    drainRxFifo_spec (s.requestedBytes - s.remainingBytes)
      { s with sr := s.sr &&& (0xFFFFFFFF ^^^ (s.sr &&& XSPIPS_IXR_WR_TO_CLR_MASK)),
               ier := s.ier &&& (0xFFFFFFFF ^^^ XSPIPS_IXR_TXOW_MASK) }
  simp only [] at d1 d2 d10 d11 d13
  have hreq0 : (drainRxFifo (s.requestedBytes - s.remainingBytes)
      { s with sr := s.sr &&& (0xFFFFFFFF ^^^ (s.sr &&& XSPIPS_IXR_WR_TO_CLR_MASK)),
               ier := s.ier &&& (0xFFFFFFFF ^^^ XSPIPS_IXR_TXOW_MASK) }).requestedBytes
        = 0 := by
    rw [d1]; omega
  have hrem0 : (drainRxFifo (s.requestedBytes - s.remainingBytes)
      { s with sr := s.sr &&& (0xFFFFFFFF ^^^ (s.sr &&& XSPIPS_IXR_WR_TO_CLR_MASK)),
               ier := s.ier &&& (0xFFFFFFFF ^^^ XSPIPS_IXR_TXOW_MASK) }).remainingBytes
        = 0 := by
    rw [d2]; exact hrem
  obtain ⟨e1, e2, e3, e4, e5, e6, e7, e8, e9, e10, e11, e12, e13, e14, e15, e16⟩ :=
    fillTxFifo_spec d 0
      (drainRxFifo (s.requestedBytes - s.remainingBytes)
        { s with sr := s.sr &&& (0xFFFFFFFF ^^^ (s.sr &&& XSPIPS_IXR_WR_TO_CLR_MASK)),
                 ier := s.ier &&& (0xFFFFFFFF ^^^ XSPIPS_IXR_TXOW_MASK) }) 0 hrem0
  simp only [Nat.zero_sub, Nat.sub_zero, Nat.zero_min, Nat.add_zero] at e2 e3
  have hcond : (fillTxFifo d
      (drainRxFifo (s.requestedBytes - s.remainingBytes)
        { s with sr := s.sr &&& (0xFFFFFFFF ^^^ (s.sr &&& XSPIPS_IXR_WR_TO_CLR_MASK)),
                 ier := s.ier &&& (0xFFFFFFFF ^^^ XSPIPS_IXR_TXOW_MASK) }) 0).1.remainingBytes
        = 0 ∧
      (fillTxFifo d
      (drainRxFifo (s.requestedBytes - s.remainingBytes)
        { s with sr := s.sr &&& (0xFFFFFFFF ^^^ (s.sr &&& XSPIPS_IXR_WR_TO_CLR_MASK)),
                 ier := s.ier &&& (0xFFFFFFFF ^^^ XSPIPS_IXR_TXOW_MASK) }) 0).1.requestedBytes
        = 0 := by
    constructor
    · rw [e2]
    · rw [e3, hreq0]
  obtain ⟨k1, k2, k3, k4, k5, k6, k7, k8, k9, k10⟩ :=
    handlerDoneStage_spec (fillTxFifo d
      (drainRxFifo (s.requestedBytes - s.remainingBytes)
        { s with sr := s.sr &&& (0xFFFFFFFF ^^^ (s.sr &&& XSPIPS_IXR_WR_TO_CLR_MASK)),
                 ier := s.ier &&& (0xFFFFFFFF ^^^ XSPIPS_IXR_TXOW_MASK) }) 0).1
  simp only [XSpiPs_InterruptHandler]
  rw [if_neg (by simp [hready]), if_neg (by rw [hmodf0]; decide), if_pos htxow,
      if_pos hcond, if_neg (not_not_intro hrxovr0), if_neg (not_not_intro htxuf0)]
  refine ⟨?_, k2, k3, ?_, ?_, ?_, ?_⟩
  · rw [k1, e9, d10, e3, hreq0]
  · rw [k4, e3, hreq0]
  · rw [k5, e2]
  · rw [k6, e12, d13]
    rw [Nat.land_assoc]
    have hz : (0xFFFFFFFF ^^^ XSPIPS_IXR_DFLT_MASK) &&& XSPIPS_IXR_DFLT_MASK = 0 := by
      decide
    rw [hz]
    simp
  · rw [k10]
    simp [XSpiPs_IsManualChipSelect, e10, d11]

theorem interruptHandler_counters (d : Nat) (s : SpiSys)
    (hinv : s.remainingBytes ≤ s.requestedBytes) :
    (XSpiPs_InterruptHandler d s).remainingBytes ≤
      (XSpiPs_InterruptHandler d s).requestedBytes := by
  by_cases hready : s.isReady = true
  · by_cases hmodf : s.sr &&& XSPIPS_IXR_MODF_MASK = XSPIPS_IXR_MODF_MASK
    · obtain ⟨_, _, _, h4, h5, _, _⟩ := handlerModf_props d s hready hmodf
      omega
    · obtain ⟨d1, d2, d3, d4, d5, d6, d7, d8, d9, d10, d11, d12, d13, d14, d15, d16⟩ :=
        drainRxFifo_spec (s.requestedBytes - s.remainingBytes)
          { s with sr := s.sr &&& (0xFFFFFFFF ^^^ (s.sr &&& XSPIPS_IXR_WR_TO_CLR_MASK)),
                   ier := s.ier &&& (0xFFFFFFFF ^^^ XSPIPS_IXR_TXOW_MASK) }
      simp only [] at d1 d2
      clear d3 d4 d5 d6 d7 d8 d9 d10 d11 d12 d13 d14 d15 d16
      obtain ⟨e1, e2, e3, e4, e5, e6, e7, e8, e9, e10, e11, e12, e13, e14, e15, e16⟩ :=
        fillTxFifo_spec d
          ((drainRxFifo (s.requestedBytes - s.remainingBytes)
            { s with sr := s.sr &&& (0xFFFFFFFF ^^^ (s.sr &&& XSPIPS_IXR_WR_TO_CLR_MASK)),
                     ier := s.ier &&& (0xFFFFFFFF ^^^ XSPIPS_IXR_TXOW_MASK) }).remainingBytes)
          (drainRxFifo (s.requestedBytes - s.remainingBytes)
            { s with sr := s.sr &&& (0xFFFFFFFF ^^^ (s.sr &&& XSPIPS_IXR_WR_TO_CLR_MASK)),
                     ier := s.ier &&& (0xFFFFFFFF ^^^ XSPIPS_IXR_TXOW_MASK) })
          0 rfl
      clear e1 e4 e5 e6 e7 e8 e9 e10 e11 e12 e13 e14 e15 e16
      simp only [XSpiPs_InterruptHandler]
      rw [if_neg (by simp [hready]), if_neg hmodf]
      have hfs : ∀ (ev : Nat) (x : SpiSys),
          (handlerFaultStage ev x).remainingBytes = x.remainingBytes ∧
          (handlerFaultStage ev x).requestedBytes = x.requestedBytes := by
        intro ev x
        exact ⟨(handlerFaultStage_spec ev x).2.2.2.1, (handlerFaultStage_spec ev x).2.2.1⟩
      split
      all_goals try rw [(hfs _ _).1, (hfs _ _).2]
      all_goals split
      all_goals try rw [(hfs _ _).1, (hfs _ _).2]
      all_goals split
      all_goals try split
      all_goals first
        | (rw [(handlerDoneStage_spec _).2.2.2.2.1, (handlerDoneStage_spec _).2.2.2.1]
           omega)
        | (rw [(manualStartStep_frame _).2.2.2.2.2.1, (manualStartStep_frame _).2.2.2.2.1]
           simp only []
           omega)
        | (simp only []
           omega)
  · simp only [XSpiPs_InterruptHandler]
    rw [if_pos hready]
    exact hinv

/-- Claim C1: for every byte count N > 0 and FIFO depth D > 0,
`XSpiPs_PolledTransfer` with a non-null send buffer on a ready, non-busy
instance performs exactly ceil(N/D) fill/drain passes of its outer loop
(the returned pass list has length `(N + D - 1) / D`); each pass pushes
`min(RemainingBytes, D)` bytes into the transmit FIFO (the list is
exactly `passSpec D N`, whose entries are those minima) and then retires
exactly that many bytes from the receive side; in total N bytes are
clocked out on the bus and N bytes are retired (`RequestedBytes` and
`RemainingBytes` both end at zero and the pass counts sum to N). -/
theorem claim_C1_polled_pass_structure (d : Nat) (s : SpiSys) (data : List Nat)
    (rb : Bool) (n : Nat) (hd : 0 < d) (hn : 0 < n)
    (hready : s.isReady = true) (hbusy : s.isBusy = false)
    (htx : s.txFifo = []) (hrx : s.rxFifo = []) :
    ∃ s', XSpiPs_PolledTransfer d s (some data) rb n =
        some (XST_SUCCESS, s', (passSpec d n).map (fun m => (m, m))) ∧
      (passSpec d n).length = (n + d - 1) / d ∧
      (passSpec d n).sum = n ∧
      (∀ p ∈ (passSpec d n).map (fun m => (m, m)), p.2 = p.1) ∧
      s'.requestedBytes = 0 ∧ s'.remainingBytes = 0 ∧
      s'.clocked = s.clocked + n ∧
      s'.isBusy = false ∧ s'.enabled = false :=
  polledTransfer_pass_structure d s data rb n hd hn hready hbusy htx hrx

/-- Witness for C1: a 10-byte polled transfer at depth 4 takes 3 passes
of 4, 4 and 2 bytes. -/
theorem claim_C1_witness :
    (0 : Nat) < 4 ∧ (0 : Nat) < 10 ∧
    (∃ s', XSpiPs_PolledTransfer 4 initSys (some [0, 1, 2, 3, 4, 5, 6, 7, 8, 9])
        true 10 =
        some (XST_SUCCESS, s', (passSpec 4 10).map (fun m => (m, m))) ∧
      (passSpec 4 10).length = (10 + 4 - 1) / 4 ∧
      (passSpec 4 10).sum = 10 ∧
      (∀ p ∈ (passSpec 4 10).map (fun m => (m, m)), p.2 = p.1) ∧
      s'.requestedBytes = 0 ∧ s'.remainingBytes = 0 ∧
      s'.clocked = initSys.clocked + 10 ∧
      s'.isBusy = false ∧ s'.enabled = false) :=
  ⟨by decide, by decide,
    claim_C1_polled_pass_structure 4 initSys [0, 1, 2, 3, 4, 5, 6, 7, 8, 9]
      true 10 (by decide) (by decide) rfl rfl rfl rfl⟩

/-- Claim C2, the code evaluated at the failing input: on a ready idle
instance `XSpiPs_SetSlaveSelect` with line 0 (and line 2) succeeds, yet
`XSpiPs_GetSlaveSelect` then returns the sentinel 0xF rather than the
line index: the complement in `(~ConfigReg) > 0x4` is taken at the full
32-bit width of `ConfigReg`, so it is at least 0xFFFFFFF0 for every
4-bit field value and the decoder takes the sentinel branch
unconditionally. -/
theorem claim_C2_get_returns_sentinel :
    (XSpiPs_SetSlaveSelect initSys 0).1 = XST_SUCCESS ∧
    XSpiPs_GetSlaveSelect (XSpiPs_SetSlaveSelect initSys 0).2 = 0xF ∧
    ¬ XSpiPs_GetSlaveSelect (XSpiPs_SetSlaveSelect initSys 0).2 = 0 ∧
    XSpiPs_GetSlaveSelect (XSpiPs_SetSlaveSelect initSys 2).2 = 0xF := by
  decide

/-- Claim C3 counterexample: a receive overrun reported by the interrupt
handler clears the busy flag but leaves the device enabled, and a mode
fault in manual chip-select mode leaves the previously asserted
chip-select line asserted (control-register select field still 0xE, not
the all-deasserted 0xF), so runtime faults do not always leave the
device in the claimed clean idle state before the callback runs. -/
theorem claim_C3_counterexample :
    (XSpiPs_InterruptHandler 128 ovrSys).statusCalls =
      [(XST_SPI_RECEIVE_OVERRUN, 5)] ∧
    (XSpiPs_InterruptHandler 128 ovrSys).enabled = true ∧
    (XSpiPs_InterruptHandler 128 ovrSys).isBusy = false ∧
    XSpiPs_IsManualChipSelect modfCsSys = true ∧
    (XSpiPs_InterruptHandler 128 modfCsSys).statusCalls =
      [(XST_SPI_MODE_FAULT, 4)] ∧
    (XSpiPs_InterruptHandler 128 modfCsSys).cr &&& XSPIPS_CR_SSCTRL_MASK =
      0xE <<< 10 ∧
    ¬ (XSpiPs_InterruptHandler 128 modfCsSys).cr &&& XSPIPS_CR_SSCTRL_MASK =
      XSPIPS_CR_SSCTRL_MASK := by
  obtain ⟨o1, o2, o3, o4, o5, o6⟩ :=
    handlerRxOvr_props 128 ovrSys rfl (by decide) (by decide) (by decide) (by decide)
  obtain ⟨m1, m2, m3, m4, m5, m6, m7⟩ :=
    handlerModf_props 128 modfCsSys rfl (by decide)
  refine ⟨?_, ?_, o2, by decide, ?_, ?_, ?_⟩
  · rw [o1]; decide
  · rw [o3]; decide
  · rw [m1]; decide
  · rw [m7]; decide
  · rw [m7]; decide

/-- Claim C3 amended: each runtime fault performs only part of the
claimed cleanup before the callback.  A mode fault clears the busy flag
and disables the device (via the abort) but does not touch the control
register, so the chip-select lines are not deasserted; a receive overrun
or transmit underrun clears the busy flag and deasserts the chip-select
lines in manual chip-select mode but does not disable the device. -/
theorem claim_C3_amended :
    (∀ (d : Nat) (s : SpiSys), s.isReady = true →
      s.sr &&& XSPIPS_IXR_MODF_MASK = XSPIPS_IXR_MODF_MASK →
      (XSpiPs_InterruptHandler d s).isBusy = false ∧
      (XSpiPs_InterruptHandler d s).enabled = false ∧
      (XSpiPs_InterruptHandler d s).cr = s.cr) ∧
    (∀ (d : Nat) (s : SpiSys), s.isReady = true →
      s.sr &&& XSPIPS_IXR_MODF_MASK = 0 →
      s.sr &&& XSPIPS_IXR_TXOW_MASK = 0 →
      s.sr &&& XSPIPS_IXR_RXOVR_MASK ≠ 0 →
      s.sr &&& XSPIPS_IXR_TXUF_MASK = 0 →
      (XSpiPs_InterruptHandler d s).isBusy = false ∧
      (XSpiPs_InterruptHandler d s).enabled = s.enabled ∧
      (XSpiPs_InterruptHandler d s).cr =
        (if XSpiPs_IsManualChipSelect s then s.cr ||| XSPIPS_CR_SSCTRL_MASK
         else s.cr)) ∧
    (∀ (d : Nat) (s : SpiSys), s.isReady = true →
      s.sr &&& XSPIPS_IXR_MODF_MASK = 0 →
      s.sr &&& XSPIPS_IXR_TXOW_MASK = 0 →
      s.sr &&& XSPIPS_IXR_RXOVR_MASK = 0 →
      s.sr &&& XSPIPS_IXR_TXUF_MASK ≠ 0 →
      (XSpiPs_InterruptHandler d s).isBusy = false ∧
      (XSpiPs_InterruptHandler d s).enabled = s.enabled ∧
      (XSpiPs_InterruptHandler d s).cr =
        (if XSpiPs_IsManualChipSelect s then s.cr ||| XSPIPS_CR_SSCTRL_MASK
         else s.cr)) := by
  refine ⟨?_, ?_, ?_⟩
  · intro d s h1 h2
    obtain ⟨_, m2, _, _, _, m6, m7⟩ := handlerModf_props d s h1 h2
    exact ⟨m2, m6, m7⟩
  · intro d s h1 h2 h3 h4 h5
    obtain ⟨_, o2, o3, _, _, o6⟩ := handlerRxOvr_props d s h1 h2 h3 h4 h5
    exact ⟨o2, o3, o6⟩
  · intro d s h1 h2 h3 h4 h5
    obtain ⟨_, u2, u3, _, _, u6⟩ := handlerTxUf_props d s h1 h2 h3 h4 h5
    exact ⟨u2, u3, u6⟩

/-- Witness for the amended C3 at the three concrete fault states. -/
theorem claim_C3_witness :
    ((XSpiPs_InterruptHandler 128 modfCsSys).isBusy = false ∧
     (XSpiPs_InterruptHandler 128 modfCsSys).enabled = false ∧
     (XSpiPs_InterruptHandler 128 modfCsSys).cr = modfCsSys.cr) ∧
    ((XSpiPs_InterruptHandler 128 ovrSys).isBusy = false ∧
     (XSpiPs_InterruptHandler 128 ovrSys).enabled = ovrSys.enabled ∧
     (XSpiPs_InterruptHandler 128 ovrSys).cr =
       (if XSpiPs_IsManualChipSelect ovrSys then
          ovrSys.cr ||| XSPIPS_CR_SSCTRL_MASK
        else ovrSys.cr)) ∧
    ((XSpiPs_InterruptHandler 128 ufSys).isBusy = false ∧
     (XSpiPs_InterruptHandler 128 ufSys).enabled = ufSys.enabled ∧
     (XSpiPs_InterruptHandler 128 ufSys).cr =
       (if XSpiPs_IsManualChipSelect ufSys then
          ufSys.cr ||| XSPIPS_CR_SSCTRL_MASK
        else ufSys.cr)) :=
  ⟨claim_C3_amended.1 128 modfCsSys rfl (by decide),
   claim_C3_amended.2.1 128 ovrSys rfl (by decide) (by decide) (by decide) (by decide),
   claim_C3_amended.2.2 128 ufSys rfl (by decide) (by decide) (by decide) (by decide)⟩

/-- Claim C4, the code evaluated at the failing input: at the completion
interrupt of a 2-byte transfer the handler masks the default interrupts,
deasserts chip select (manual mode), clears the busy flag, disables the
device and invokes the callback exactly once with the transfer-done
event — but with byte count 0, the residual `RequestedBytes` after the
final drain, not the transfer's byte count 2. -/
theorem claim_C4_complete_reports_zero :
    (XSpiPs_InterruptHandler 128 doneSys).statusCalls =
      [(XST_SPI_TRANSFER_DONE, 0)] ∧
    ¬ (XSpiPs_InterruptHandler 128 doneSys).statusCalls =
      [(XST_SPI_TRANSFER_DONE, 2)] ∧
    doneSys.requestedBytes = 2 ∧
    (XSpiPs_InterruptHandler 128 doneSys).isBusy = false ∧
    (XSpiPs_InterruptHandler 128 doneSys).enabled = false ∧
    (XSpiPs_InterruptHandler 128 doneSys).ier &&& XSPIPS_IXR_DFLT_MASK = 0 ∧
    (XSpiPs_InterruptHandler 128 doneSys).cr =
      doneSys.cr ||| XSPIPS_CR_SSCTRL_MASK := by
  obtain ⟨h1, h2, h3, h4, h5, h6, h7⟩ :=
    handlerComplete_props 128 doneSys rfl (by decide) (by decide) (by decide)
      (by decide) rfl
  refine ⟨?_, ?_, by decide, h2, h3, h6, ?_⟩
  · rw [h1]; decide
  · rw [h1]; decide
  · rw [h7, if_pos (by decide)]

/-- Claim C5 counterexample: with 6 of 10 bytes already retired on the
receive side and all 10 queued (`requestedBytes = 4`,
`remainingBytes = 0`), a latched mode fault makes the handler report
byte count `requestedBytes - remainingBytes = 4`, not 6. -/
theorem claim_C5_counterexample :
    modfSys.requestedBytes = 4 ∧ modfSys.remainingBytes = 0 ∧
    (XSpiPs_InterruptHandler 128 modfSys).statusCalls =
      [(XST_SPI_MODE_FAULT, 4)] ∧
    ¬ (XSpiPs_InterruptHandler 128 modfSys).statusCalls =
      [(XST_SPI_MODE_FAULT, 6)] ∧
    (XSpiPs_InterruptHandler 128 modfSys).isBusy = false ∧
    (XSpiPs_InterruptHandler 128 modfSys).rxFifo = [] := by
  obtain ⟨m1, m2, m3, m4, m5, m6, m7⟩ :=
    handlerModf_props 128 modfSys rfl (by decide)
  refine ⟨by decide, by decide, ?_, ?_, m2, m3⟩
  · rw [m1]; decide
  · rw [m1]; decide

/-- Claim C5 amended: when the mode-fault status bit is latched, the
handler aborts the transfer and invokes the status callback exactly once
with the mode-fault event and byte count
`requestedBytes - remainingBytes` — the number of bytes queued for
transmit but not yet retired on the receive side, not the number of
bytes already round-tripped (for the 10-byte scenario with 6 bytes
retired and all 10 queued this count is 4) — and returns without
processing any other pending status flags; afterwards the busy flag is
false, both counters are zero, and the receive FIFO is empty. -/
theorem claim_C5_amended (d : Nat) (s : SpiSys) (hready : s.isReady = true)
    (hmodf : s.sr &&& XSPIPS_IXR_MODF_MASK = XSPIPS_IXR_MODF_MASK) :
    (XSpiPs_InterruptHandler d s).statusCalls =
      s.statusCalls ++
        [(XST_SPI_MODE_FAULT, s.requestedBytes - s.remainingBytes)] ∧
    (XSpiPs_InterruptHandler d s).isBusy = false ∧
    (XSpiPs_InterruptHandler d s).rxFifo = [] ∧
    (XSpiPs_InterruptHandler d s).requestedBytes = 0 ∧
    (XSpiPs_InterruptHandler d s).remainingBytes = 0 := by
  obtain ⟨m1, m2, m3, m4, m5, m6, m7⟩ := handlerModf_props d s hready hmodf
  exact ⟨m1, m2, m3, m4, m5⟩

/-- Witness for the amended C5 at the concrete 6-of-10 scenario. -/
theorem claim_C5_witness :
    (XSpiPs_InterruptHandler 128 modfSys).statusCalls =
      modfSys.statusCalls ++
        [(XST_SPI_MODE_FAULT, modfSys.requestedBytes - modfSys.remainingBytes)] ∧
    (XSpiPs_InterruptHandler 128 modfSys).isBusy = false ∧
    (XSpiPs_InterruptHandler 128 modfSys).rxFifo = [] ∧
    (XSpiPs_InterruptHandler 128 modfSys).requestedBytes = 0 ∧
    (XSpiPs_InterruptHandler 128 modfSys).remainingBytes = 0 :=
  claim_C5_amended 128 modfSys rfl (by decide)

/-- Claim C6 counterexample: after the handler services a receive
overrun, the busy flag is false (no transfer is in flight any more) while
`RequestedBytes` is still 5 and `RemainingBytes` 0 — so the two counters
being zero is not equivalent to no transfer being in flight. -/
theorem claim_C6_counterexample :
    (XSpiPs_InterruptHandler 128 ovrSys).isBusy = false ∧
    (XSpiPs_InterruptHandler 128 ovrSys).requestedBytes = 5 ∧
    ¬ (XSpiPs_InterruptHandler 128 ovrSys).requestedBytes = 0 := by
  obtain ⟨o1, o2, o3, o4, o5, o6⟩ :=
    handlerRxOvr_props 128 ovrSys rfl (by decide) (by decide) (by decide) (by decide)
  refine ⟨o2, ?_, ?_⟩
  · rw [o4]; decide
  · rw [o4]; decide

/-- Claim C6 amended: `requestedBytes ≥ remainingBytes` is preserved at
every observation point — by each transmit-fill loop, by each receive
drain whose count does not exceed the bytes in flight (as all the
driver's drains do), and by the interrupt handler — and a successful
polled transfer ends with both counters at zero; but both-zero is not
equivalent to "no transfer in flight or completed": a receive overrun or
transmit underrun clears the busy flag while leaving the counters
untouched. -/
theorem claim_C6_amended :
    (∀ (d : Nat) (s : SpiSys) (tc : Nat),
      s.remainingBytes ≤ s.requestedBytes →
      (fillTxFifo d s tc).1.remainingBytes ≤
        (fillTxFifo d s tc).1.requestedBytes) ∧
    (∀ (n : Nat) (s : SpiSys),
      n + s.remainingBytes ≤ s.requestedBytes →
      (drainRxFifo n s).remainingBytes ≤ (drainRxFifo n s).requestedBytes) ∧
    (∀ (d : Nat) (s : SpiSys),
      s.remainingBytes ≤ s.requestedBytes →
      (XSpiPs_InterruptHandler d s).remainingBytes ≤
        (XSpiPs_InterruptHandler d s).requestedBytes) ∧
    (∀ (d : Nat) (s : SpiSys) (data : List Nat) (rb : Bool)
        (n : Nat) (s' : SpiSys) (l : List (Nat × Nat)),
      0 < d → 0 < n → s.isReady = true → s.isBusy = false →
      s.txFifo = [] → s.rxFifo = [] →
      XSpiPs_PolledTransfer d s (some data) rb n = some (XST_SUCCESS, s', l) →
      s'.requestedBytes = 0 ∧ s'.remainingBytes = 0 ∧ s'.isBusy = false) := by
  refine ⟨?_, ?_, ?_, ?_⟩
  · intro d s tc hinv
    have hf := fillTxFifo_spec d s.remainingBytes s tc rfl
    rw [hf.2.1, hf.2.2.1]
    omega
  · intro n s hinv
    have hg := drainRxFifo_spec n s
    rw [hg.1, hg.2.1]
    omega
  · intro d s hinv
    exact interruptHandler_counters d s hinv
  · intro d s data rb n s' l hd hn hready hbusy htx hrx heq
    obtain ⟨s'', h, hlen, hsum, hall, hreq, hrem, hclk, hbusy2, hen⟩ :=
      polledTransfer_pass_structure d s data rb n hd hn hready hbusy htx hrx
    rw [h] at heq
    simp only [Option.some.injEq, Prod.mk.injEq] at heq
    obtain ⟨-, hs, -⟩ := heq
    rw [← hs]
    exact ⟨hreq, hrem, hbusy2⟩

/-- Witness for the amended C6 at concrete inputs. -/
theorem claim_C6_witness :
    ((fillTxFifo 4 modfSys 0).1.remainingBytes ≤
      (fillTxFifo 4 modfSys 0).1.requestedBytes) ∧
    ((drainRxFifo 2 doneSys).remainingBytes ≤
      (drainRxFifo 2 doneSys).requestedBytes) ∧
    ((XSpiPs_InterruptHandler 128 ovrSys).remainingBytes ≤
      (XSpiPs_InterruptHandler 128 ovrSys).requestedBytes) ∧
    (∃ (s' : SpiSys) (l : List (Nat × Nat)),
      XSpiPs_PolledTransfer 4 initSys (some [1, 2, 3]) true 3 =
        some (XST_SUCCESS, s', l) ∧
      s'.requestedBytes = 0 ∧ s'.remainingBytes = 0 ∧ s'.isBusy = false) := by
  obtain ⟨s', hp, -, -, -, -, -, -, -, -⟩ :=
    polledTransfer_pass_structure 4 initSys [1, 2, 3] true 3 (by decide)
      (by decide) rfl rfl rfl rfl
  exact ⟨claim_C6_amended.1 4 modfSys 0 (by decide),
    claim_C6_amended.2.1 2 doneSys (by decide),
    claim_C6_amended.2.2.1 128 ovrSys (by decide),
    s', (passSpec 4 3).map (fun m => (m, m)), hp,
    claim_C6_amended.2.2.2 4 initSys [1, 2, 3] true 3 s'
      ((passSpec 4 3).map (fun m => (m, m))) (by decide) (by decide) rfl rfl
      rfl rfl hp⟩

/-- Claim C7: while a transfer is in flight (`IsBusy` true), each of
`XSpiPs_Transfer`, `XSpiPs_PolledTransfer` and `XSpiPs_SetSlaveSelect`
returns `XST_DEVICE_BUSY` and returns the instance and device state
entirely unchanged (the result carries the very same state, so buffers,
counters, the cached slave select and the control register are all
untouched). -/
theorem claim_C7_busy_rejects (d : Nat) (s : SpiSys) (l : List Nat) (rb : Bool)
    (n k : Nat) (hbusy : s.isBusy = true) (hready : s.isReady = true)
    (hn : 0 < n) (hk : k ≤ XSPIPS_CR_SSCTRL_MAXIMUM) :
    XSpiPs_Transfer d s (some l) rb n = (XST_DEVICE_BUSY, s) ∧
    XSpiPs_PolledTransfer d s (some l) rb n = some (XST_DEVICE_BUSY, s, []) ∧
    XSpiPs_SetSlaveSelect s k = (XST_DEVICE_BUSY, s) := by
  refine ⟨?_, ?_, ?_⟩
  · rw [XSpiPs_Transfer, if_neg (by simp [hready]; omega), if_pos hbusy]
  · rw [XSpiPs_PolledTransfer, if_neg (by simp [hready]; omega), if_pos hbusy]
  · rw [XSpiPs_SetSlaveSelect, if_neg (by simp [hready, hk]), if_pos hbusy]

/-- Witness for C7 on a concrete busy instance. -/
theorem claim_C7_witness :
    XSpiPs_Transfer 128 busySys (some [1]) false 1 = (XST_DEVICE_BUSY, busySys) ∧
    XSpiPs_PolledTransfer 128 busySys (some [1]) false 1 =
      some (XST_DEVICE_BUSY, busySys, []) ∧
    XSpiPs_SetSlaveSelect busySys 0 = (XST_DEVICE_BUSY, busySys) :=
  claim_C7_busy_rejects 128 busySys [1] false 1 0 rfl rfl (by decide) (by decide)

/-- Claim C9: `XSpiPs_Abort` always disables the device, drains the
receive FIFO empty, clears the mode-fault status flag, zeroes both byte
counters and clears the busy flag; and it modifies nothing else — the
buffers, cached slave select, control register, interrupt mask, transmit
FIFO and bus state are untouched — so with no transfer active it is a
no-op beyond this state clearing, leaving `IsBusy` false and both
counters at zero. -/
theorem claim_C9_abort (s : SpiSys) :
    (XSpiPs_Abort s).enabled = false ∧
    (XSpiPs_Abort s).rxFifo = [] ∧
    (XSpiPs_Abort s).sr &&& XSPIPS_IXR_MODF_MASK = 0 ∧
    (XSpiPs_Abort s).remainingBytes = 0 ∧
    (XSpiPs_Abort s).requestedBytes = 0 ∧
    (XSpiPs_Abort s).isBusy = false ∧
    (XSpiPs_Abort s).isReady = s.isReady ∧
    (XSpiPs_Abort s).sendBuf = s.sendBuf ∧
    (XSpiPs_Abort s).recvBuf = s.recvBuf ∧
    (XSpiPs_Abort s).slaveSelect = s.slaveSelect ∧
    (XSpiPs_Abort s).statusCalls = s.statusCalls ∧
    (XSpiPs_Abort s).cr = s.cr ∧
    (XSpiPs_Abort s).ier = s.ier ∧
    (XSpiPs_Abort s).txFifo = s.txFifo ∧
    (XSpiPs_Abort s).clocked = s.clocked := by
  rw [XSpiPs_Abort_spec]
  refine ⟨rfl, rfl, ?_, rfl, rfl, rfl, rfl, rfl, rfl, rfl, rfl, rfl, rfl, rfl, rfl⟩
  show (s.sr &&& (0xFFFFFFFF ^^^ XSPIPS_IXR_MODF_MASK)) &&& XSPIPS_IXR_MODF_MASK = 0
  rw [Nat.land_assoc]
  have h2 : (0xFFFFFFFF ^^^ XSPIPS_IXR_MODF_MASK) &&& XSPIPS_IXR_MODF_MASK = 0 := by
    decide
  rw [h2]
  simp

/-- Claim C8, the code evaluated at the failing input: with line 0
previously asserted in the control register (select field 0xE), a
successful `XSpiPs_SetSlaveSelect 1` caches the new encoding 0xD but ORs
it into the control register without clearing the old field, leaving the
field at 0xF (every line deasserted) instead of exactly the new
encoding. -/
theorem claim_C8_cr_not_cleared :
    (XSpiPs_SetSlaveSelect { initSys with cr := 0xE <<< 10 } 1).1 =
      XST_SUCCESS ∧
    (XSpiPs_SetSlaveSelect { initSys with cr := 0xE <<< 10 } 1).2.slaveSelect =
      0xD <<< 10 ∧
    (XSpiPs_SetSlaveSelect { initSys with cr := 0xE <<< 10 } 1).2.cr &&&
        XSPIPS_CR_SSCTRL_MASK = 0xF <<< 10 ∧
    ¬ (XSpiPs_SetSlaveSelect { initSys with cr := 0xE <<< 10 } 1).2.cr &&&
        XSPIPS_CR_SSCTRL_MASK =
      (XSpiPs_SetSlaveSelect { initSys with cr := 0xE <<< 10 } 1).2.slaveSelect := by
  decide

/-- Claim C10: for every slave-select argument k with 4 ≤ k ≤ 0xF (the
asserted maximum), `XSpiPs_SetSlaveSelect` on a ready, non-busy instance
succeeds and stores the same cached encoding as the explicit
deselect-all sentinel 0xF — all four select bits high — because the
shifted one-hot bit `1 << k` falls outside the 4-bit select field. -/
theorem claim_C10_high_index_deselects_all (k : Nat) (s : SpiSys)
    (hk4 : 4 ≤ k) (hk : k ≤ XSPIPS_CR_SSCTRL_MAXIMUM)
    (hready : s.isReady = true) (hbusy : s.isBusy = false) :
    (XSpiPs_SetSlaveSelect s k).1 = XST_SUCCESS ∧
    (XSpiPs_SetSlaveSelect s k).2.slaveSelect =
      (XSpiPs_SetSlaveSelect s XSPIPS_CR_SSCTRL_MAXIMUM).2.slaveSelect ∧
    (XSpiPs_SetSlaveSelect s k).2.slaveSelect =
      XSPIPS_CR_SSCTRL_MAXIMUM <<< XSPIPS_CR_SSCTRL_SHIFT := by
  have hk15 : k ≤ 15 := by
    have h : XSPIPS_CR_SSCTRL_MAXIMUM = 15 := by decide
    omega
  rw [XSpiPs_SetSlaveSelect, if_neg (by simp [hready, hk]), if_neg (by simp [hbusy])]
  rw [XSpiPs_SetSlaveSelect, if_neg (by simp [hready]), if_neg (by simp [hbusy])]
  refine ⟨rfl, ?_, ?_⟩
  · simp only []
    rw [ssEncode_high k hk4 hk15]
    exact (ssEncode_high XSPIPS_CR_SSCTRL_MAXIMUM (by decide) (by decide)).symm
  · simp only []
    rw [ssEncode_high k hk4 hk15]

/-- Witness for C10 at k = 7 on a ready idle instance. -/
theorem claim_C10_witness :
    (XSpiPs_SetSlaveSelect initSys 7).1 = XST_SUCCESS ∧
    (XSpiPs_SetSlaveSelect initSys 7).2.slaveSelect =
      (XSpiPs_SetSlaveSelect initSys XSPIPS_CR_SSCTRL_MAXIMUM).2.slaveSelect ∧
    (XSpiPs_SetSlaveSelect initSys 7).2.slaveSelect =
      XSPIPS_CR_SSCTRL_MAXIMUM <<< XSPIPS_CR_SSCTRL_SHIFT :=
  claim_C10_high_index_deselects_all 7 initSys (by decide) (by decide) rfl rfl
